import Mathlib

/-!
Verification of the lensecam acquisition core.

This development gives a shallow embedding of the acquisition-and-delivery
core of the lensecam repository:

* `camera_thread.py` — the push-model `CameraThread` (`run`, `stop`,
  `__init__`), modelled both as a sequential executable function over a
  finite schedule of `get_image` outcomes (`runMethod`) and as a labelled
  transition system over interleavings of the acquisition loop with a
  concurrent stop requester (`Step`).
* `camera_ids_widget0.py` — the pull-model `CameraIdsWidget`
  (`get_disp_image` normalization, `start_acquisition` / `stop_acquisition`,
  the `refresh` timer tick) and the `fps` / `expo` branches of
  `CameraIdsParamsWidget.update_params`.

Device SDK calls (`init_camera`, `alloc_memory`, `start_acquisition`,
`get_image`, `stop_acquisition`, `free_memory`, parameter setters) belong to
the external camera wrapper; the embedding records when they are invoked
(`DeviceCall`) and takes their outcomes as inputs, which is exactly the
information the properties below are about.

Python `float` arithmetic on frame rates and exposures is modelled exactly
over `ℚ`; at every concrete input used in a theorem the float computation is
far from a rounding boundary, so the rational model and the float
computation agree. `int(x)` is truncation toward zero (`pyInt`) and
`round(x)` is round-half-to-even (`pyRound`). Numpy `astype(np.uint8)`
truncates toward zero and wraps modulo 256, hence the explicit `% 256`.
-/

namespace Lensecam

/-! ## CameraThread: data types -/

/-- Outcome of one `self.camera.get_image()` call inside `CameraThread.run`
(camera_thread.py line 63): either an image array is returned, or the call
(or the subsequent `emit`) raises an exception. -/
inductive FrameEvent where
  | frame (data : List ℕ)
  | raiseExc
  deriving DecidableEq, Repr

/-- The only piece of the external camera wrapper that `CameraThread` reads:
its `camera_acquiring` attribute. -/
structure CameraObj where
  cameraAcquiring : Bool
  deriving DecidableEq, Repr

/-- Mutable attributes of a `CameraThread` object, from `__init__`
(camera_thread.py lines 25-29): `self.running`, `self.stopping`,
`self.camera` (which is `None` until `set_camera` is called). -/
structure ThreadState where
  running : Bool
  stopping : Bool
  camera : Option CameraObj
  deriving DecidableEq, Repr

/-- The state a `CameraThread` is in right after `__init__`
(camera_thread.py lines 25-29): `running = False`, `stopping = False`,
`camera = None`. -/
def initThreadState : ThreadState := ⟨false, false, none⟩

/-- Python exceptions that the embedding distinguishes. -/
inductive PyExc where
  | attributeError
  deriving DecidableEq, Repr

/-- Device methods invoked by the code under verification, in invocation
order. -/
inductive DeviceCall where
  | initCamera
  | allocMemory
  | startAcq
  | getImage
  | stopAcq
  | freeMemory
  | setExposure (v : ℚ)
  | setFrameRate (v : ℚ)
  | setBlackLevel (v : ℚ)
  deriving DecidableEq, Repr

/-! ## CameraThread.run, sequential model

`CameraThread.run` (camera_thread.py lines 47-68) is

```python
try:
    if self.camera.camera_acquiring is False:
        self.camera.init_camera()
        self.camera.alloc_memory()
        self.camera.start_acquisition()
        self.running = True
    while self.running:
        image_array = self.camera.get_image()
        self.image_acquired.emit(image_array)
        self.stopping = False
except Exception as e:
    print(f'Thread Running - Exception - {e}')
```

`runLoop` executes the `while` loop over a finite schedule of `get_image`
outcomes; an empty schedule ends the observation window. No concurrent
stop request runs here, so `self.running` is constant throughout the loop.
An exception anywhere in the loop body is caught by the surrounding
`try/except`, which logs it and ends the method. -/

/-- Observables of the `while self.running` loop of `CameraThread.run`:
the emitted images in order, whether the `except` branch logged an
exception, and the final values of `self.running` and `self.stopping`. -/
structure LoopResult where
  emitted : List (List ℕ)
  excLogged : Bool
  runningAfter : Bool
  stoppingAfter : Bool
  deriving DecidableEq, Repr

/-- The `while self.running` loop of `CameraThread.run`
(camera_thread.py lines 62-65) over a finite schedule of `get_image`
outcomes. Each successful iteration emits the image and then executes
`self.stopping = False`; an exception ends the loop via the `except`
branch. -/
def runLoop (running stopping : Bool) : List FrameEvent → LoopResult
  | [] => ⟨[], false, running, stopping⟩
  | ev :: rest =>
    if running then
      match ev with
      | FrameEvent.frame d =>
          let r := runLoop running false rest
          ⟨d :: r.emitted, r.excLogged, r.runningAfter, r.stoppingAfter⟩
      | FrameEvent.raiseExc => ⟨[], true, running, stopping⟩
    else ⟨[], false, running, stopping⟩

/-- Observables of one sequential execution of `CameraThread.run`. -/
structure RunResult where
  initCalled : Bool
  allocCalled : Bool
  startCalled : Bool
  emitted : List (List ℕ)
  excLogged : Bool
  runningAfter : Bool
  stoppingAfter : Bool
  deriving DecidableEq, Repr

/-- Sequential execution of `CameraThread.run` (camera_thread.py lines
47-68) from a given object state, over a finite schedule of `get_image`
outcomes. Dereferencing `self.camera.camera_acquiring` with
`camera = None` raises `AttributeError`, caught by the `try/except` and
logged. When `camera_acquiring` is `False` the method calls
`init_camera`, `alloc_memory`, `start_acquisition` (modelled as
succeeding) and sets `self.running = True`; otherwise it falls through to
the `while` loop with `self.running` unchanged. -/
def runMethod (st : ThreadState) (events : List FrameEvent) : RunResult :=
  match st.camera with
  | none => ⟨false, false, false, [], true, st.running, st.stopping⟩
  | some cam =>
      if cam.cameraAcquiring then
        let r := runLoop st.running st.stopping events
        ⟨false, false, false, r.emitted, r.excLogged, r.runningAfter, r.stoppingAfter⟩
      else
        let r := runLoop true st.stopping events
        ⟨true, true, true, r.emitted, r.excLogged, r.runningAfter, r.stoppingAfter⟩

/-! ## CameraThread.stop, sequential model

`CameraThread.stop` (camera_thread.py lines 35-45) is

```python
if self.camera.camera_acquiring is True:
    self.running = False
    self.stopping = True
    while self.stopping == True:
        pass
    self.camera.stop_acquisition()
    self.camera.free_memory()
```

The busy wait exits only if the concurrently running loop clears
`self.stopping`; the parameter `loopAcks` records whether it eventually
does. With `camera = None` the guard itself raises `AttributeError`. -/

/-- How a call to `CameraThread.stop` ends. -/
inductive StopOutcome where
  | noop
  | completed
  | blocked
  deriving DecidableEq, Repr

/-- Model of `CameraThread.stop` (camera_thread.py lines 35-45). Returns the new
object state, how the call ended, and the device methods invoked. -/
def threadStop (st : ThreadState) (loopAcks : Bool) :
    Except PyExc (ThreadState × StopOutcome × List DeviceCall) :=
  match st.camera with
  | none => Except.error PyExc.attributeError
  | some cam =>
      if cam.cameraAcquiring then
        if loopAcks then
          Except.ok ({ st with running := false, stopping := false },
            StopOutcome.completed, [DeviceCall.stopAcq, DeviceCall.freeMemory])
        else
          Except.ok ({ st with running := false, stopping := true },
            StopOutcome.blocked, [])
      else
        Except.ok (st, StopOutcome.noop, [])

example : runMethod ⟨false, false, some ⟨false⟩⟩ [FrameEvent.frame [3], FrameEvent.frame [4]] =
    ⟨true, true, true, [[3], [4]], false, true, false⟩ := by decide

example : runMethod initThreadState [] = ⟨false, false, false, [], true, false, false⟩ := by decide

/-! ## Python numeric primitives -/

/-- Python `int(x)`: truncation toward zero. -/
def pyInt (q : ℚ) : ℤ := if 0 ≤ q then ⌊q⌋ else ⌈q⌉

/-- Python `round(x)` to an integer: round half to even. -/
def pyRound (q : ℚ) : ℤ :=
  if q - ⌊q⌋ < 1 / 2 then ⌊q⌋
  else if 1 / 2 < q - ⌊q⌋ then ⌊q⌋ + 1
  else if ⌊q⌋ % 2 = 0 then ⌊q⌋ else ⌊q⌋ + 1

/-! ## Frame normalization (CameraIdsWidget.get_disp_image)

`get_disp_image` (camera_ids_widget0.py lines 504-520) is, for the
normalization part:

```python
nb_bits = get_bits_per_pixel(self.camera.get_color_mode())
if nb_bits > 8:
    image_array = image_array.view(np.uint16)
    image_array_disp = (image_array / (2 ** (nb_bits - 8))).astype(np.uint8)
else:
    image_array = image_array.view(np.uint8)
    image_array_disp = image_array.astype(np.uint8)
```

For `nb_bits > 8` the samples are 16-bit integers; dividing by a power of
two is exact in `float64` for values up to 65535, and `astype(np.uint8)`
truncates toward zero and wraps modulo 256, so the per-sample map is
`(v / 2 ^ (nbBits - 8)) % 256` with natural-number division. For
`nb_bits ≤ 8` the bytes are reinterpreted unchanged. -/

/-- Per-sample normalization performed by `get_disp_image`
(camera_ids_widget0.py lines 511-517). -/
def disp_sample (nbBits v : ℕ) : ℕ :=
  if 8 < nbBits then (v / 2 ^ (nbBits - 8)) % 256 else v % 256

/-- Value computed by `CameraIdsWidget.get_disp_image`
(camera_ids_widget0.py lines 504-520): `None` when
`camera.is_camera_connected()` is false, otherwise the raw samples mapped
through `disp_sample`. The method also calls `self.start_acquisition()`
before grabbing the image; that side effect is modelled with the scheduler
state below and does not affect the returned value. -/
def get_disp_image (connected : Bool) (nbBits : ℕ) (raw : List ℕ) : Option (List ℕ) :=
  if connected then some (raw.map (disp_sample nbBits)) else none

/-! ## CameraIdsWidget scheduler state -/

/-- Timer interval computed by `CameraIdsWidget.start_acquisition` and
`connect_camera` (camera_ids_widget0.py lines 402-404 and 434-436):
`time_ms = int(1000 / fps + 10)`. -/
def timerIntervalCode (fps : ℚ) : ℤ := pyInt (1000 / fps + 10)

/-- Modelled from the spec: the interval formula the specification states
for the scheduler, `max(1, round(1000/frame_rate) + margin_ms)` with a
10 ms margin. Kept separate from `timerIntervalCode` so the two can be
compared. -/
def timerIntervalSpec (fps : ℚ) : ℤ := max 1 (pyRound (1000 / fps) + 10)

/-- State of a `CameraIdsWidget` together with the camera parameters and
the exposure-time slider of its `CameraIdsParamsWidget`, as read and
written by the code under verification. `connected` is
`is_connected()` / `camera.is_camera_connected()`; `camAcquiring` is the
device's own acquiring state; `camExposure` is in microseconds; the slider
fields are in milliseconds. -/
structure WidgetState where
  connected : Bool
  camAcquiring : Bool
  camNbBits : ℕ
  camFrameRate : ℚ
  camExposure : ℚ
  camBlackLevel : ℚ
  timerActive : Bool
  timerInterval : ℤ
  expoSliderMin : ℚ
  expoSliderMax : ℚ
  expoSliderValue : ℚ
  deriving DecidableEq, Repr

/-- Model of `CameraIdsWidget.stop_acquisition` (camera_ids_widget0.py lines
421-427):

```python
if self.is_connected():
    if self.main_timer.isActive():
        self.main_timer.stop()
    if keep_active is False:
        self.camera.stop_acquisition()
```

The guard reads only the connection state, never `camAcquiring`. -/
def stop_acquisition (st : WidgetState) (keep_active : Bool) :
    WidgetState × List DeviceCall :=
  if st.connected then
    let st1 := if st.timerActive then { st with timerActive := false } else st
    if keep_active then (st1, []) else ({ st1 with camAcquiring := false }, [DeviceCall.stopAcq])
  else (st, [])

/-- Model of `CameraIdsWidget.start_acquisition` (camera_ids_widget0.py lines
429-437): when connected, calls the device start, recomputes
`time_ms = int(1000 / fps + 10)` from the current frame rate, re-arms the
timer. -/
def start_acquisition (st : WidgetState) : WidgetState × List DeviceCall :=
  if st.connected then
    ({ st with
        camAcquiring := true, timerActive := true,
        timerInterval := timerIntervalCode st.camFrameRate }, [DeviceCall.startAcq])
  else (st, [])

/-! ## CameraIdsParamsWidget.update_params

`update_params` (camera_ids_widget0.py lines 232-269) dispatches on the
parameter named in the slider event; the gating on the event prefix and on
the Auto-Update checkbox is not modelled, the two branches the claims are
about are. `self.parent.update_params()` at the end only rewrites display
labels (`SmallParamsDisplay.update_params`, camera_ids_widget.py lines
207-220) and is omitted. -/

/-- The `fps` branch of `update_params` (camera_ids_widget0.py lines
240-256), with `v` the new slider value:

```python
value = self.fps_slider.get_real_value()
expo = self.parent.camera.get_exposure() / 1000
fps_t = 1 / value * 1000
expo_val = int(fps_t - 1) * 1000
self.expotime_slider.set_min_max_slider(1, expo_val / 1000)
if expo > fps_t:
    self.parent.camera.set_exposure(expo_val)
    self.expotime_slider.set_value(expo_val)
self.parent.camera.set_frame_rate(value)
# Update interval of the timer
```

The final comment is followed by no code: the timer is not touched. -/
def update_params_fps (st : WidgetState) (v : ℚ) : WidgetState × List DeviceCall :=
  let expo := st.camExposure / 1000
  let fps_t := 1 / v * 1000
  let expo_val : ℤ := pyInt (fps_t - 1) * 1000
  let st1 := { st with expoSliderMin := 1, expoSliderMax := (expo_val : ℚ) / 1000 }
  if fps_t < expo then
    ({ st1 with
        camExposure := (expo_val : ℚ), expoSliderValue := (expo_val : ℚ),
        camFrameRate := v },
      [DeviceCall.setExposure (expo_val : ℚ), DeviceCall.setFrameRate v])
  else
    ({ st1 with camFrameRate := v }, [DeviceCall.setFrameRate v])

/-- The `expo` branch of `update_params` (camera_ids_widget0.py lines
257-261):

```python
value = self.expotime_slider.get_real_value() * 1000
self.parent.camera.set_exposure(value)
```

The requested value is forwarded to the device setter with no check. -/
def update_params_expo (st : WidgetState) : WidgetState × List DeviceCall :=
  let value := st.expoSliderValue * 1000
  ({ st with camExposure := value }, [DeviceCall.setExposure value])

/-! ## CameraIdsWidget.refresh, timer ticks

`refresh` (camera_ids_widget0.py lines 456-486) wraps its whole body in
`try/except`; no path touches `main_timer`, except that a successful
`get_disp_image` internally calls `start_acquisition`, which re-arms it.
One tick's input is the outcome of the acquire/normalize/render step. -/

/-- Input of one timer tick: the raw image produced by a successful
acquire, or an exception raised anywhere in the tick body. -/
inductive TickEvent where
  | frame (raw : List ℕ)
  | raiseExc
  deriving DecidableEq, Repr

/-- Observable outcome of one `refresh` call. -/
inductive TickOutcome where
  | displayed (img : List ℕ)
  | noCamera
  | logged
  deriving DecidableEq, Repr

/-- One execution of `CameraIdsWidget.refresh` (camera_ids_widget0.py
lines 456-486). On success the displayed image is the normalized frame and
the timer has been re-armed by the internal `start_acquisition`; an
exception is caught and logged, leaving the state unchanged; without a
camera the text label is set instead. -/
def refreshStep (st : WidgetState) (ev : TickEvent) : WidgetState × TickOutcome :=
  if st.connected then
    match ev with
    | TickEvent.frame raw =>
        ({ st with
            camAcquiring := true, timerActive := true,
            timerInterval := timerIntervalCode st.camFrameRate },
          TickOutcome.displayed (raw.map (disp_sample st.camNbBits)))
    | TickEvent.raiseExc => (st, TickOutcome.logged)
  else (st, TickOutcome.noCamera)

/-- A sequence of timer ticks, each one running `refresh` on the state the
previous tick left. -/
def runTicks (st : WidgetState) : List TickEvent → WidgetState × List TickOutcome
  | [] => (st, [])
  | ev :: rest =>
      let p := refreshStep st ev
      let q := runTicks p.1 rest
      (q.1, p.2 :: q.2)

/-- Outcome a single tick produces from its input when a camera is
connected, as a function of the camera bit depth alone. -/
def tickOutcomeOf (nbBits : ℕ) : TickEvent → TickOutcome
  | TickEvent.frame raw => TickOutcome.displayed (raw.map (disp_sample nbBits))
  | TickEvent.raiseExc => TickOutcome.logged

/-! ## CameraThread: interleaved stop protocol

The push-model stop handshake runs in two execution contexts: the
acquisition loop (`CameraThread.run`, camera_thread.py lines 56-68) and
the stop requester (`CameraThread.stop`, lines 35-45), sharing the plain
attributes `self.running`, `self.stopping` and the camera's
`camera_acquiring`. Each Python statement is one atomic step of a labelled
transition system; `Step` is the union of both contexts' steps, so every
interleaving is a path of `Step`. History variables record that the
requester executed `self.stopping = True` (`stopRequested`), that the loop
afterwards executed `self.stopping = False` (`acked`), and which device
teardown calls have been issued. Exceptions anywhere in the `run` body
jump to the `except` branch, ending the loop. -/

/-- Program counter of the `run` body (camera_thread.py lines 56-68). -/
inductive LoopPC where
  | checkAcq
  | doInit
  | doAlloc
  | doStart
  | setRunning
  | checkRunning
  | acquire
  | clearStop
  | finished
  deriving DecidableEq, Repr

/-- Program counter of the `stop` body (camera_thread.py lines 35-45).
`idle` is before the call; `noopDone` is the exit when the guard
`camera.camera_acquiring is True` fails. -/
inductive StopPC where
  | idle
  | setRunFalse
  | setStopTrue
  | waitLoop
  | callStop
  | callFree
  | sdone
  | noopDone
  deriving DecidableEq, Repr

/-- Joint state of the two contexts: the shared attributes, both program
counters and the history variables. -/
structure SysState where
  running : Bool
  stopping : Bool
  camAcquiring : Bool
  loopPC : LoopPC
  stopPC : StopPC
  stopRequested : Bool
  acked : Bool
  deviceStopCalled : Bool
  deviceFreeCalled : Bool
  deriving DecidableEq, Repr

/-- One atomic step of either context. Loop steps transcribe
camera_thread.py lines 56-65 statement by statement, with an exception
edge from each device call to the `except` branch (`finished`); stop steps
transcribe lines 35-44, the busy wait spinning while `stopping` is true. -/
inductive Step : SysState → SysState → Prop
  | checkAcqInit (s : SysState) (h : s.loopPC = LoopPC.checkAcq)
      (hc : s.camAcquiring = false) : Step s { s with loopPC := LoopPC.doInit }
  | checkAcqSkip (s : SysState) (h : s.loopPC = LoopPC.checkAcq)
      (hc : s.camAcquiring = true) : Step s { s with loopPC := LoopPC.checkRunning }
  | stepInit (s : SysState) (h : s.loopPC = LoopPC.doInit) :
      Step s { s with loopPC := LoopPC.doAlloc }
  | stepInitExc (s : SysState) (h : s.loopPC = LoopPC.doInit) :
      Step s { s with loopPC := LoopPC.finished }
  | stepAlloc (s : SysState) (h : s.loopPC = LoopPC.doAlloc) :
      Step s { s with loopPC := LoopPC.doStart }
  | stepAllocExc (s : SysState) (h : s.loopPC = LoopPC.doAlloc) :
      Step s { s with loopPC := LoopPC.finished }
  | stepStart (s : SysState) (h : s.loopPC = LoopPC.doStart) :
      Step s { s with loopPC := LoopPC.setRunning, camAcquiring := true }
  | stepStartExc (s : SysState) (h : s.loopPC = LoopPC.doStart) :
      Step s { s with loopPC := LoopPC.finished }
  | stepSetRunning (s : SysState) (h : s.loopPC = LoopPC.setRunning) :
      Step s { s with loopPC := LoopPC.checkRunning, running := true }
  | checkRunT (s : SysState) (h : s.loopPC = LoopPC.checkRunning)
      (hr : s.running = true) : Step s { s with loopPC := LoopPC.acquire }
  | checkRunF (s : SysState) (h : s.loopPC = LoopPC.checkRunning)
      (hr : s.running = false) : Step s { s with loopPC := LoopPC.finished }
  | stepAcquire (s : SysState) (h : s.loopPC = LoopPC.acquire) :
      Step s { s with loopPC := LoopPC.clearStop }
  | stepAcquireExc (s : SysState) (h : s.loopPC = LoopPC.acquire) :
      Step s { s with loopPC := LoopPC.finished }
  | stepClearStop (s : SysState) (h : s.loopPC = LoopPC.clearStop) :
      Step s { s with
          loopPC := LoopPC.checkRunning, stopping := false,
          acked := s.acked || s.stopRequested }
  | stopGuardT (s : SysState) (h : s.stopPC = StopPC.idle)
      (hc : s.camAcquiring = true) : Step s { s with stopPC := StopPC.setRunFalse }
  | stopGuardF (s : SysState) (h : s.stopPC = StopPC.idle)
      (hc : s.camAcquiring = false) : Step s { s with stopPC := StopPC.noopDone }
  | stopSetRunFalse (s : SysState) (h : s.stopPC = StopPC.setRunFalse) :
      Step s { s with stopPC := StopPC.setStopTrue, running := false }
  | stopSetStopTrue (s : SysState) (h : s.stopPC = StopPC.setStopTrue) :
      Step s { s with stopPC := StopPC.waitLoop, stopping := true, stopRequested := true }
  | stopWaitSpin (s : SysState) (h : s.stopPC = StopPC.waitLoop)
      (hs : s.stopping = true) : Step s s
  | stopWaitExit (s : SysState) (h : s.stopPC = StopPC.waitLoop)
      (hs : s.stopping = false) : Step s { s with stopPC := StopPC.callStop }
  | stopCallStop (s : SysState) (h : s.stopPC = StopPC.callStop) :
      Step s { s with
          stopPC := StopPC.callFree, deviceStopCalled := true, camAcquiring := false }
  | stopCallFree (s : SysState) (h : s.stopPC = StopPC.callFree) :
      Step s { s with stopPC := StopPC.sdone, deviceFreeCalled := true }

/-- Reachability along interleaved steps. -/
def Reachable (s0 s : SysState) : Prop := Relation.ReflTransGen Step s0 s

/-- Inductive invariant of the handshake: past `setStopTrue` the request
flag is up; the requester sits at the busy wait only while `stopping` is
still set or the loop has already acknowledged; and the teardown program
points and the teardown history bits all imply a prior acknowledgement. -/
def HandshakeInv (s : SysState) : Prop :=
  (s.stopPC = StopPC.waitLoop →
    s.stopRequested = true ∧ (s.stopping = true ∨ s.acked = true)) ∧
  ((s.stopPC = StopPC.callStop ∨ s.stopPC = StopPC.callFree ∨ s.stopPC = StopPC.sdone) →
    s.acked = true) ∧
  (s.deviceStopCalled = true → s.acked = true) ∧
  (s.deviceFreeCalled = true → s.acked = true)

theorem handshakeInv_step {s s' : SysState} (h : HandshakeInv s) (hs : Step s s') :
    HandshakeInv s' := by
  cases hs <;> simp_all [HandshakeInv]

theorem handshakeInv_reachable {s0 s : SysState} (h0 : HandshakeInv s0)
    (hr : Reachable s0 s) : HandshakeInv s := by
  induction hr with
  | refl => exact h0
  | tail _ hstep ih => exact handshakeInv_step ih hstep

/-! ## Helper lemmas about the sequential run loop -/

/-- The method `CameraThread.run` never clears `self.running`: the loop leaves the
flag as it found it. -/
theorem runLoop_runningAfter (r s : Bool) (events : List FrameEvent) :
    (runLoop r s events).runningAfter = r := by
  induction events generalizing s with
  | nil => simp [runLoop]
  | cons ev rest ih =>
      cases ev <;> simp [runLoop] <;> split <;> simp [ih]

/-- With `self.running` false the `while` loop body never executes: no
frame is acquired or emitted and nothing can raise. -/
theorem runLoop_not_running (s : Bool) (events : List FrameEvent) :
    runLoop false s events = ⟨[], false, false, s⟩ := by
  cases events <;> simp [runLoop]

/-- A schedule of well-formed frames followed by a raising call: the loop
emits exactly the frames before the exception and the `except` branch
logs it; nothing after the exception is processed. -/
theorem runLoop_frames_then_exc (s : Bool) (datas : List (List ℕ))
    (rest : List FrameEvent) :
    runLoop true s (datas.map FrameEvent.frame ++ FrameEvent.raiseExc :: rest) =
      ⟨datas, true, true, if datas.isEmpty then s else false⟩ := by
  induction datas generalizing s with
  | nil => simp [runLoop]
  | cons d ds ih => simp [runLoop, ih]

/-! ## Claim theorems: CameraThread -/

/-- C1: in the push model, the stop requester clears `running`, sets
`stopping`, and busy-waits until the loop acknowledges by clearing
`stopping`; in every interleaving of the two contexts starting with the
requester before its call and the history clean, whenever
`camera.stop_acquisition()` or `camera.free_memory()` has been invoked,
the loop had already acknowledged the request. -/
theorem stop_protocol_device_teardown_after_ack (s0 s : SysState)
    (hpc : s0.stopPC = StopPC.idle) (hreq : s0.stopRequested = false)
    (hack : s0.acked = false) (hstop : s0.deviceStopCalled = false)
    (hfree : s0.deviceFreeCalled = false) (hr : Reachable s0 s) :
    (s.deviceStopCalled = true → s.acked = true) ∧
    (s.deviceFreeCalled = true → s.acked = true) := by
  have h0 : HandshakeInv s0 := by
    refine ⟨?_, ?_, ?_, ?_⟩ <;> simp_all
  have h := handshakeInv_reachable h0 hr
  exact ⟨h.2.2.1, h.2.2.2⟩

theorem stop_protocol_device_teardown_after_ack_witness :
    (⟨false, false, false, LoopPC.checkRunning, StopPC.callFree,
      true, true, true, false⟩ : SysState).acked = true := by
  have h1 : Step
      (⟨true, false, true, LoopPC.checkRunning, StopPC.idle, false, false, false, false⟩ : SysState)
      ⟨true, false, true, LoopPC.acquire, StopPC.idle, false, false, false, false⟩ :=
    Step.checkRunT _ rfl rfl
  have h2 : Step
      (⟨true, false, true, LoopPC.acquire, StopPC.idle, false, false, false, false⟩ : SysState)
      ⟨true, false, true, LoopPC.acquire, StopPC.setRunFalse, false, false, false, false⟩ :=
    Step.stopGuardT _ rfl rfl
  have h3 : Step
      (⟨true, false, true, LoopPC.acquire, StopPC.setRunFalse, false, false, false, false⟩ : SysState)
      ⟨false, false, true, LoopPC.acquire, StopPC.setStopTrue, false, false, false, false⟩ :=
    Step.stopSetRunFalse _ rfl
  have h4 : Step
      (⟨false, false, true, LoopPC.acquire, StopPC.setStopTrue, false, false, false, false⟩ : SysState)
      ⟨false, true, true, LoopPC.acquire, StopPC.waitLoop, true, false, false, false⟩ :=
    Step.stopSetStopTrue _ rfl
  have h5 : Step
      (⟨false, true, true, LoopPC.acquire, StopPC.waitLoop, true, false, false, false⟩ : SysState)
      ⟨false, true, true, LoopPC.clearStop, StopPC.waitLoop, true, false, false, false⟩ :=
    Step.stepAcquire _ rfl
  have h6 : Step
      (⟨false, true, true, LoopPC.clearStop, StopPC.waitLoop, true, false, false, false⟩ : SysState)
      ⟨false, false, true, LoopPC.checkRunning, StopPC.waitLoop, true, true, false, false⟩ :=
    Step.stepClearStop _ rfl
  have h7 : Step
      (⟨false, false, true, LoopPC.checkRunning, StopPC.waitLoop, true, true, false, false⟩ : SysState)
      ⟨false, false, true, LoopPC.checkRunning, StopPC.callStop, true, true, false, false⟩ :=
    Step.stopWaitExit _ rfl rfl
  have h8 : Step
      (⟨false, false, true, LoopPC.checkRunning, StopPC.callStop, true, true, false, false⟩ : SysState)
      ⟨false, false, false, LoopPC.checkRunning, StopPC.callFree, true, true, true, false⟩ :=
    Step.stopCallStop _ rfl
  have hr : Reachable
      ⟨true, false, true, LoopPC.checkRunning, StopPC.idle, false, false, false, false⟩
      ⟨false, false, false, LoopPC.checkRunning, StopPC.callFree,
        true, true, true, false⟩ :=
    Relation.ReflTransGen.head h1 (Relation.ReflTransGen.head h2
      (Relation.ReflTransGen.head h3 (Relation.ReflTransGen.head h4
        (Relation.ReflTransGen.head h5 (Relation.ReflTransGen.head h6
          (Relation.ReflTransGen.head h7 (Relation.ReflTransGen.single h8)))))))
  exact (stop_protocol_device_teardown_after_ack _ _ rfl rfl rfl rfl rfl hr).1 rfl

/-- C3 fails on the code: starting a fresh worker on a non-acquiring
device and scheduling a malformed (raising) frame followed by a
well-formed frame `[5]`, the run emits nothing at all — the later
well-formed frame is never delivered — and the exception is logged by the
`except` branch that ends the loop. -/
theorem run_malformed_then_good_frame_cex :
    (runMethod ⟨false, false, some ⟨false⟩⟩
      [FrameEvent.raiseExc, FrameEvent.frame [5]]).emitted = [] ∧
    (runMethod ⟨false, false, some ⟨false⟩⟩
      [FrameEvent.raiseExc, FrameEvent.frame [5]]).excLogged = true := by
  decide

/-- C3 (amended): in the push-worker loop an exception — a malformed frame
included — is caught and logged by the surrounding `try/except`, but it
terminates the loop: exactly the frames acquired before it are emitted and
no later well-formed frame is delivered until a new start. -/
theorem run_exception_terminates_loop (r s : Bool) (datas : List (List ℕ))
    (rest : List FrameEvent) :
    (runMethod ⟨r, s, some ⟨false⟩⟩
      (datas.map FrameEvent.frame ++ FrameEvent.raiseExc :: rest)).emitted = datas ∧
    (runMethod ⟨r, s, some ⟨false⟩⟩
      (datas.map FrameEvent.frame ++ FrameEvent.raiseExc :: rest)).excLogged = true := by
  simp [runMethod, runLoop_frames_then_exc]

/-- C8 fails on the code as stated: with the device already acquiring and
a stale `running = True` flag (the state an exception-terminated loop
leaves behind, since only `stop` clears the flag), a second `run` is
neither a no-op nor a rejection — it emits the frame `[7]` and raises no
error. The allocation guard itself does hold, see the amended theorem. -/
theorem second_start_while_acquiring_not_noop_cex :
    (runMethod ⟨true, false, some ⟨true⟩⟩ [FrameEvent.frame [7]]).emitted = [[7]] ∧
    (runMethod ⟨true, false, some ⟨true⟩⟩ [FrameEvent.frame [7]]).excLogged = false ∧
    (runMethod ⟨true, false, some ⟨true⟩⟩ [FrameEvent.frame [7]]).allocCalled = false := by
  decide

/-- C8 (amended): when `CameraThread.run` begins with the device already
acquiring, `init_camera`, `alloc_memory` and `start_acquisition` are never
called — buffers are never allocated twice for the same device — and if
the `running` flag is clear (the state after construction or a completed
stop) the loop body never executes, so the second start is a no-op; only a
stale `running` flag left by an exception-terminated loop makes it resume
emitting frames, still without re-allocating. -/
theorem second_start_no_double_allocation (st : ThreadState) (cam : CameraObj)
    (events : List FrameEvent) (hcam : st.camera = some cam)
    (hacq : cam.cameraAcquiring = true) :
    (runMethod st events).initCalled = false ∧
    (runMethod st events).allocCalled = false ∧
    (runMethod st events).startCalled = false ∧
    (st.running = false → (runMethod st events).emitted = []) := by
  refine ⟨?_, ?_, ?_, fun hrun => ?_⟩ <;>
    simp [runMethod, hcam, hacq, runLoop_not_running, *]

theorem second_start_no_double_allocation_witness :
    (runMethod ⟨false, false, some ⟨true⟩⟩ [FrameEvent.frame [1]]).allocCalled = false ∧
    (runMethod ⟨false, false, some ⟨true⟩⟩ [FrameEvent.frame [1]]).emitted = [] :=
  ⟨(second_start_no_double_allocation ⟨false, false, some ⟨true⟩⟩ ⟨true⟩
      [FrameEvent.frame [1]] rfl rfl).2.1,
   (second_start_no_double_allocation ⟨false, false, some ⟨true⟩⟩ ⟨true⟩
      [FrameEvent.frame [1]] rfl rfl).2.2.2 rfl⟩

/-- C9 fails on the code as stated: `run` entered with
`camera_acquiring = True` does not always execute the loop body zero
times. With the stale `running = True` flag left by an
exception-terminated loop, the loop body runs again and the worker emits
the frame `[9]`. -/
theorem run_already_acquiring_emits_cex :
    (runMethod ⟨true, false, some ⟨true⟩⟩ [FrameEvent.frame [9]]).emitted = [[9]] ∧
    (runMethod ⟨true, false, some ⟨true⟩⟩ [FrameEvent.frame [9]]).runningAfter = true := by
  decide

/-- C9 (amended): when `CameraThread.run` begins with the device already
acquiring, the `running` flag is never set by the method (it keeps its
entry value), and if it was clear at entry the loop body executes zero
times: the worker terminates without emitting a frame and without
raising; with a stale `running = True` left by an exception-terminated
loop, the loop resumes and frames are emitted. -/
theorem run_already_acquiring_behavior (st : ThreadState) (cam : CameraObj)
    (events : List FrameEvent) (hcam : st.camera = some cam)
    (hacq : cam.cameraAcquiring = true) :
    (runMethod st events).runningAfter = st.running ∧
    (st.running = false →
      (runMethod st events).emitted = [] ∧ (runMethod st events).excLogged = false) := by
  refine ⟨?_, fun hrun => ?_⟩ <;>
    simp [runMethod, hcam, hacq, runLoop_runningAfter, runLoop_not_running, *]

theorem run_already_acquiring_behavior_witness :
    (runMethod ⟨false, false, some ⟨true⟩⟩ [FrameEvent.raiseExc]).emitted = [] ∧
    (runMethod ⟨false, false, some ⟨true⟩⟩ [FrameEvent.raiseExc]).excLogged = false :=
  (run_already_acquiring_behavior ⟨false, false, some ⟨true⟩⟩ ⟨true⟩
    [FrameEvent.raiseExc] rfl rfl).2 rfl

/-- C10: calling `CameraThread.stop` on a thread fresh from `__init__`,
before `set_camera` has assigned a camera, raises `AttributeError` while
dereferencing `self.camera.camera_acquiring`; it is not a no-op, whatever
the concurrent loop would have done. -/
theorem thread_stop_no_camera_attribute_error (ack : Bool) :
    threadStop initThreadState ack = Except.error PyExc.attributeError := rfl

/-! ## Claim theorems: frame normalization -/

/-- A sample of a `d`-bit frame (`d > 8`) normalized by `get_disp_image`
is exactly the shifted value, and the `uint8` cast cannot wrap. -/
theorem disp_sample_shift {d v : ℕ} (hd : 8 < d) (hv : v < 2 ^ d) :
    disp_sample d v = v / 2 ^ (d - 8) ∧ v / 2 ^ (d - 8) ≤ 255 := by
  have hlt : v / 2 ^ (d - 8) < 256 := by
    apply Nat.div_lt_of_lt_mul
    have hsplit : 2 ^ (d - 8) * 256 = 2 ^ d := by
      rw [show (256 : ℕ) = 2 ^ 8 from rfl, ← pow_add]
      congr 1
      omega
    omega
  constructor
  · simp [disp_sample, hd, Nat.mod_eq_of_lt hlt]
  · omega

/-- C2: for a connected camera and a `d`-bit frame with `d > 8`,
`get_disp_image` maps each sample `v` to `v / 2 ^ (d - 8)` (floor
division) and every output sample is at most 255; in particular at
`d = 12` sample 4095 maps to 255, 16 to 1 and 0 to 0; and for bit depth
at most 8 the sample bytes pass through unchanged. -/
theorem normalize_shift_bounds_and_identity (d : ℕ) (raw : List ℕ) (hd : 8 < d)
    (hraw : ∀ v ∈ raw, v < 2 ^ d) :
    get_disp_image true d raw = some (raw.map (fun v => v / 2 ^ (d - 8))) ∧
    (∀ u ∈ raw.map (disp_sample d), u ≤ 255) ∧
    disp_sample 12 4095 = 255 ∧ disp_sample 12 16 = 1 ∧ disp_sample 12 0 = 0 ∧
    (∀ (d8 : ℕ) (raw8 : List ℕ), d8 ≤ 8 → (∀ v ∈ raw8, v < 256) →
      get_disp_image true d8 raw8 = some raw8) := by
  refine ⟨?_, ?_, by decide, by decide, by decide, ?_⟩
  · simp only [get_disp_image, if_true]
    congr 1
    exact List.map_congr_left fun v hv => (disp_sample_shift hd (hraw v hv)).1
  · intro u hu
    rcases List.mem_map.mp hu with ⟨v, hv, rfl⟩
    rw [(disp_sample_shift hd (hraw v hv)).1]
    exact (disp_sample_shift hd (hraw v hv)).2
  · intro d8 raw8 hd8 hraw8
    simp only [get_disp_image, if_true]
    congr 1
    have hmap : raw8.map (disp_sample d8) = raw8.map id := by
      refine List.map_congr_left fun v hv => ?_
      have hnot : ¬ 8 < d8 := by omega
      simp [disp_sample, hnot, Nat.mod_eq_of_lt (hraw8 v hv)]
    rw [hmap, List.map_id]

theorem normalize_shift_bounds_and_identity_witness :
    get_disp_image true 12 [4095, 16, 0] =
      some ([4095, 16, 0].map (fun v => v / 2 ^ (12 - 8))) :=
  (normalize_shift_bounds_and_identity 12 [4095, 16, 0] (by decide)
    (by decide)).1

/-! ## Claim theorems: scheduler timer interval -/

/-- For a positive frame rate, `int(1000 / fps + 10)` is
`floor(1000 / fps) + 10`. -/
theorem timerIntervalCode_eq_floor (fps : ℚ) (h : 0 < fps) :
    timerIntervalCode fps = ⌊(1000 : ℚ) / fps⌋ + 10 := by
  have h0 : (0 : ℚ) ≤ 1000 / fps + 10 := by positivity
  rw [timerIntervalCode, pyInt, if_pos h0,
    show ((10 : ℚ)) = ((10 : ℤ) : ℚ) by norm_num, Int.floor_add_int]

/-- C4 fails on the code: the implemented interval is
`int(1000 / fps + 10)`, which at frame rate 7 gives 152 ms, while the
claimed formula `max(1, round(1000 / fps) + 10)` gives 153 ms; and
changing the frame rate from 10 to 25 through the `fps` branch of
`update_params` leaves the armed 110 ms interval untouched instead of
re-arming it to 50 ms. -/
theorem timer_interval_formula_and_rearm_cex :
    timerIntervalCode 7 = 152 ∧ timerIntervalSpec 7 = 153 ∧
    (update_params_fps ⟨true, true, 8, 10, 10000, 0, true, 110, 1, 99, 10⟩
      25).1.timerInterval = 110 ∧ (110 : ℤ) ≠ 50 := by
  refine ⟨?_, ?_, ?_, by norm_num⟩
  · norm_num [timerIntervalCode, pyInt]
  · norm_num [timerIntervalSpec, pyRound]
  · norm_num [update_params_fps]

/-- C4 (amended): the scheduler's timer interval, computed when
acquisition starts (`connect_camera` / `start_acquisition`), equals
`floor(1000 / frame_rate) + 10` milliseconds — 110 ms at frame rate 10
and 50 ms at frame rate 25 — but changing the frame rate through the
`fps` branch of `update_params` while the scheduler runs does not
recompute or re-arm the timer: the interval and the timer activity are
left unchanged, and the new rate only takes effect at the next
`start_acquisition`. -/
theorem timer_interval_floor_and_no_rearm (fps : ℚ) (st : WidgetState) (v : ℚ)
    (hfps : 0 < fps) (hconn : st.connected = true) :
    timerIntervalCode fps = ⌊(1000 : ℚ) / fps⌋ + 10 ∧
    timerIntervalCode 10 = 110 ∧ timerIntervalCode 25 = 50 ∧
    (update_params_fps st v).1.timerInterval = st.timerInterval ∧
    (update_params_fps st v).1.timerActive = st.timerActive ∧
    (start_acquisition st).1.timerInterval = timerIntervalCode st.camFrameRate ∧
    (start_acquisition st).1.timerActive = true := by
  refine ⟨timerIntervalCode_eq_floor fps hfps, ?_, ?_, ?_, ?_, ?_, ?_⟩
  · norm_num [timerIntervalCode, pyInt]
  · norm_num [timerIntervalCode, pyInt]
  · rw [update_params_fps]
    split <;> rfl
  · rw [update_params_fps]
    split <;> rfl
  · simp [start_acquisition, hconn]
  · simp [start_acquisition, hconn]

theorem timer_interval_floor_and_no_rearm_witness :
    timerIntervalCode 10 = ⌊(1000 : ℚ) / 10⌋ + 10 ∧
    (update_params_fps ⟨true, true, 8, 10, 10000, 0, true, 110, 1, 99, 10⟩
      25).1.timerInterval = (110 : ℤ) :=
  ⟨(timer_interval_floor_and_no_rearm 10
      ⟨true, true, 8, 10, 10000, 0, true, 110, 1, 99, 10⟩ 25 (by norm_num) rfl).1,
   (timer_interval_floor_and_no_rearm 10
      ⟨true, true, 8, 10, 10000, 0, true, 110, 1, 99, 10⟩ 25 (by norm_num) rfl).2.2.2.1⟩

/-! ## Claim theorems: exposure / frame-rate parameter updates -/

/-- C5 fails on the code: with the device at frame rate 50 (frame period
20000 µs) and a previously valid exposure of 10000 µs, requesting a
20 ms exposure through the `expo` branch of `update_params` is not
rejected: `set_exposure(20000)` is invoked on the device and the stored
exposure becomes 20000 µs, violating `exposure < frame period`. No
`ParamError` exists anywhere in the code. -/
theorem expo_update_no_validation_cex :
    (update_params_expo ⟨true, true, 8, 50, 10000, 0, true, 30, 1, 19, 20⟩).2 =
      [DeviceCall.setExposure 20000] ∧
    (update_params_expo ⟨true, true, 8, 50, 10000, 0, true, 30, 1, 19, 20⟩).1.camExposure
      = 20000 ∧
    ¬ (20000 : ℚ) < 1000000 / 50 := by
  refine ⟨?_, ?_, by norm_num⟩ <;> norm_num [update_params_expo]

/-- C5 (amended): the `expo` branch of `update_params` performs no
validation: every request is converted to microseconds and forwarded
directly to the device setter, whatever the current frame rate — there is
no `ParamError`. The exposure/frame-period invariant is enforced only by
the `fps` branch: when the stored exposure exceeds the new frame period,
it clamps the exposure to `int(1000 / fps - 1) * 1000` µs, a value
strictly below the new frame period. -/
theorem expo_forwarded_and_fps_clamps (st : WidgetState) (v : ℚ) (hv : 0 < v)
    (hgt : 1 / v * 1000 < st.camExposure / 1000) :
    (update_params_expo st).2 = [DeviceCall.setExposure (st.expoSliderValue * 1000)] ∧
    (update_params_expo st).1.camExposure = st.expoSliderValue * 1000 ∧
    (update_params_fps st v).1.camExposure = ((pyInt (1 / v * 1000 - 1) * 1000 : ℤ) : ℚ) ∧
    ((pyInt (1 / v * 1000 - 1) * 1000 : ℤ) : ℚ) < 1000000 / v := by
  refine ⟨rfl, rfl, ?_, ?_⟩
  · rw [update_params_fps]
    rw [if_pos hgt]
  · have hx : ((pyInt (1 / v * 1000 - 1) : ℤ) : ℚ) < 1 / v * 1000 := by
      rw [pyInt]
      split
      · calc ((⌊1 / v * 1000 - 1⌋ : ℤ) : ℚ) ≤ 1 / v * 1000 - 1 := Int.floor_le _
          _ < 1 / v * 1000 := by linarith
      · calc ((⌈1 / v * 1000 - 1⌉ : ℤ) : ℚ) < (1 / v * 1000 - 1) + 1 :=
            Int.ceil_lt_add_one _
          _ = 1 / v * 1000 := by ring
    have hfp : (1000000 : ℚ) / v = (1 / v * 1000) * 1000 := by
      field_simp
      norm_num
    rw [hfp]
    push_cast
    nlinarith [hx]

theorem expo_forwarded_and_fps_clamps_witness :
    (update_params_expo ⟨true, true, 8, 10, 41000, 0, true, 110, 1, 99, 20⟩).2 =
      [DeviceCall.setExposure (20 * 1000)] ∧
    ((pyInt (1 / 25 * 1000 - 1) * 1000 : ℤ) : ℚ) < 1000000 / 25 :=
  ⟨(expo_forwarded_and_fps_clamps ⟨true, true, 8, 10, 41000, 0, true, 110, 1, 99, 20⟩
      25 (by norm_num) (by norm_num)).1,
   (expo_forwarded_and_fps_clamps ⟨true, true, 8, 10, 41000, 0, true, 110, 1, 99, 20⟩
      25 (by norm_num) (by norm_num)).2.2.2⟩

/-! ## Claim theorems: stop requests while idle -/

/-- C6 fails on the code for the widget path: with a camera connected but
the device not acquiring (and the timer already stopped),
`CameraIdsWidget.stop_acquisition(keep_active=False)` still invokes the
device method `camera.stop_acquisition()`, because its guard reads only
the connection state, never the acquiring state. -/
theorem widget_stop_idle_calls_device_cex :
    (stop_acquisition ⟨true, false, 8, 10, 10000, 0, false, 110, 1, 99, 10⟩
      false).2 = [DeviceCall.stopAcq] ∧
    [DeviceCall.stopAcq] ≠ ([] : List DeviceCall) := by
  refine ⟨rfl, by simp⟩

/-- C6 (amended): `CameraThread.stop` on a non-acquiring device is a
no-op — no device method is called and the thread state is unchanged —
and `CameraIdsWidget.stop_acquisition` with no camera connected is a
no-op; but when a camera is connected and `keep_active` is false, the
widget calls the device stop method regardless of whether the device is
acquiring. -/
theorem request_stop_idle_behavior (ts : ThreadState) (cam : CameraObj)
    (ack : Bool) (ws : WidgetState) (ka : Bool)
    (hcam : ts.camera = some cam) (hacq : cam.cameraAcquiring = false) :
    threadStop ts ack = Except.ok (ts, StopOutcome.noop, []) ∧
    (ws.connected = false → stop_acquisition ws ka = (ws, [])) ∧
    (ws.connected = true → (stop_acquisition ws false).2 = [DeviceCall.stopAcq]) := by
  refine ⟨?_, ?_, ?_⟩
  · simp [threadStop, hcam, hacq]
  · intro h
    simp [stop_acquisition, h]
  · intro h
    simp [stop_acquisition, h]

theorem request_stop_idle_behavior_witness :
    threadStop ⟨false, false, some ⟨false⟩⟩ true =
      Except.ok (⟨false, false, some ⟨false⟩⟩, StopOutcome.noop, []) ∧
    (stop_acquisition ⟨true, true, 8, 10, 10000, 0, true, 110, 1, 99, 10⟩
      false).2 = [DeviceCall.stopAcq] :=
  ⟨(request_stop_idle_behavior ⟨false, false, some ⟨false⟩⟩ ⟨false⟩ true
      ⟨true, true, 8, 10, 10000, 0, true, 110, 1, 99, 10⟩ true rfl rfl).1,
   (request_stop_idle_behavior ⟨false, false, some ⟨false⟩⟩ ⟨false⟩ true
      ⟨true, true, 8, 10, 10000, 0, true, 110, 1, 99, 10⟩ true rfl rfl).2.2 rfl⟩

/-! ## Claim theorems: pull-model tick isolation -/

/-- A tick of `refresh` never changes the connection state. -/
theorem refreshStep_connected (st : WidgetState) (ev : TickEvent) :
    (refreshStep st ev).1.connected = st.connected := by
  cases hc : st.connected <;> cases ev <;> simp [refreshStep, hc]

/-- A tick of `refresh` never changes the camera bit depth. -/
theorem refreshStep_camNbBits (st : WidgetState) (ev : TickEvent) :
    (refreshStep st ev).1.camNbBits = st.camNbBits := by
  cases hc : st.connected <;> cases ev <;> simp [refreshStep, hc]

/-- No path of `refresh` stops the timer: an active timer stays active
through any tick, failed or not. -/
theorem refreshStep_timerActive (st : WidgetState) (ev : TickEvent)
    (h : st.timerActive = true) : (refreshStep st ev).1.timerActive = true := by
  cases hc : st.connected <;> cases ev <;> simp [refreshStep, hc, h]

/-- With a camera connected, the outcome of one tick depends only on that
tick's own input and the camera bit depth. -/
theorem refreshStep_outcome (st : WidgetState) (ev : TickEvent)
    (h : st.connected = true) :
    (refreshStep st ev).2 = tickOutcomeOf st.camNbBits ev := by
  cases ev <;> simp [refreshStep, tickOutcomeOf, h]

/-- C7: in the pull model, a failure during one timer tick is caught and
logged at the tick boundary and the timer stays armed; over any sequence
of ticks each tick's outcome is an independent function of its own input,
so a failed tick never prevents a later tick from acquiring and
delivering its frame: every tick whose acquire succeeds displays its
normalized frame, whatever happened before it. -/
theorem refresh_tick_failures_isolated (st : WidgetState)
    (events : List TickEvent) (hconn : st.connected = true)
    (htim : st.timerActive = true) :
    (runTicks st events).1.timerActive = true ∧
    (runTicks st events).2 = events.map (tickOutcomeOf st.camNbBits) ∧
    (∀ (i : ℕ) (raw : List ℕ), events[i]? = some (TickEvent.frame raw) →
      (runTicks st events).2[i]? =
        some (TickOutcome.displayed (raw.map (disp_sample st.camNbBits)))) := by
  have main : ∀ (evs : List TickEvent) (s : WidgetState), s.connected = true →
      s.timerActive = true →
      (runTicks s evs).1.timerActive = true ∧
      (runTicks s evs).2 = evs.map (tickOutcomeOf s.camNbBits) := by
    intro evs
    induction evs with
    | nil =>
        intro s h1 h2
        exact ⟨h2, rfl⟩
    | cons ev rest ih =>
        intro s h1 h2
        have hc : (refreshStep s ev).1.connected = true := by
          rw [refreshStep_connected]; exact h1
        have ht : (refreshStep s ev).1.timerActive = true :=
          refreshStep_timerActive s ev h2
        obtain ⟨iht, ihout⟩ := ih (refreshStep s ev).1 hc ht
        constructor
        · simpa [runTicks] using iht
        · have hbits : (refreshStep s ev).1.camNbBits = s.camNbBits :=
            refreshStep_camNbBits s ev
          simp only [runTicks, List.map]
          rw [refreshStep_outcome s ev h1]
          rw [ihout, hbits]
  refine ⟨(main events st hconn htim).1, (main events st hconn htim).2, ?_⟩
  intro i raw hi
  rw [(main events st hconn htim).2, List.getElem?_map, hi]
  rfl

theorem refresh_tick_failures_isolated_witness :
    (runTicks ⟨true, true, 12, 10, 10000, 0, true, 110, 1, 99, 10⟩
      [TickEvent.raiseExc, TickEvent.frame [4095]]).2[1]? =
      some (TickOutcome.displayed ([4095].map (disp_sample 12))) :=
  (refresh_tick_failures_isolated ⟨true, true, 12, 10, 10000, 0, true, 110, 1, 99, 10⟩
    [TickEvent.raiseExc, TickEvent.frame [4095]] rfl rfl).2.2 1 [4095] rfl

end Lensecam
